import Mathlib

/-!
Verification of the kite-custodial-sdk transport/normalization layer.

The development shallowly embeds `src/client.ts` (the `request` function and
`safeJsonParse`), the error classes of `errors.ts`, the log-level filter of
`index.ts`, and the local parameter-validation guards of the public client
methods `getWallet` and `getNonce`.

JavaScript runtime values that can appear in a parsed JSON body (or as a
thrown transport failure) are embedded as the inductive type `Js`; the
JavaScript operations the source relies on (truthiness, `&&`/`||` value
semantics, nullish coalescing `??`, strict equality against literals,
`typeof` tests, property access, the `in` operator, optional chaining) are
embedded as functions on `Js`.

Effects are made explicit:
* the `fetch`/`response.text()` exchange is an input (`FetchOutcome`):
  either the awaited pair rejected with a thrown value, or a response
  arrived with a status, status text and body text;
* `JSON.parse` is an abstract platform primitive (`Platform.jsonParse`),
  returning `none` exactly when it would throw;
* `request` either returns a decoded payload or throws one of the two
  typed errors; this tri-valued result is the inductive `ReqResult`;
* the `config.log(...)` calls in `request` are write-only side effects that
  do not influence the returned/thrown outcome, so they are not part of
  `requestModel`; the level filter that decides whether such a call emits
  is embedded separately as `shouldLog`.
-/

/-- A JavaScript runtime value, as needed for parsed JSON bodies, thrown
transport failures, and the values the transport layer builds from them.
JSON numbers that occur in the relevant fields (HTTP-like status codes) are
integral, so numbers are embedded as `Int`. -/
inductive Js where
  | undefined
  | null
  | bool (b : Bool)
  | num (n : Int)
  | str (s : String)
  | arr (elems : List Js)
  | obj (fields : List (String × Js))
deriving Repr

/-- JavaScript truthiness: `undefined`, `null`, `false`, `0` and `""` are
falsy; every object and array is truthy. -/
def truthy : Js → Bool
  | .undefined => false
  | .null => false
  | .bool b => b
  | .num n => !(n == 0)
  | .str s => !(s == "")
  | .arr _ => true
  | .obj _ => true

/-- First binding of a key in an object's field list (JSON.parse keeps one
binding per key, so field lists are treated as association lists). -/
def lookupField : List (String × Js) → String → Option Js
  | [], _ => none
  | (k, v) :: rest, key => if k == key then some v else lookupField rest key

/-- Property access `x.key`: a missing key or access on a primitive yields
`undefined`.  (Access on `null`/`undefined` would throw in JavaScript, but
every such access in the source is guarded by a truthiness check.) -/
def getField : Js → String → Js
  | .obj fields, key =>
      match lookupField fields key with
      | some v => v
      | none => .undefined
  | _, _ => .undefined

/-- The `in` operator, `"key" in x`, for the string keys the source tests. -/
def hasField : Js → String → Bool
  | .obj fields, key => (lookupField fields key).isSome
  | _, _ => false

/-- Whether a value is `null` or `undefined` (the two nullish values). -/
def isNullish : Js → Bool
  | .undefined => true
  | .null => true
  | _ => false

/-- Nullish coalescing `a ?? b`. -/
def nullishCoalesce (a b : Js) : Js :=
  if isNullish a then b else a

/-- The `typeof x === 'string'` test. -/
def isString : Js → Bool
  | .str _ => true
  | _ => false

/-- The `typeof x === 'object'` test (true for `null`, arrays and objects). -/
def typeofIsObject : Js → Bool
  | .null => true
  | .arr _ => true
  | .obj _ => true
  | _ => false

/-- Strict equality `x === "lit"` against a string literal. -/
def strictEqStr (v : Js) (s : String) : Bool :=
  match v with
  | .str t => t == s
  | _ => false

/-- Strict equality `x === b` against a boolean literal. -/
def strictEqBool (v : Js) (b : Bool) : Bool :=
  match v with
  | .bool c => c == b
  | _ => false

/-- Value-level `a && b`: the first operand if falsy, else the second. -/
def jsAnd (a b : Js) : Js :=
  if truthy a then b else a

/-- Value-level `a || b`: the first operand if truthy, else the second. -/
def jsOr (a b : Js) : Js :=
  if truthy a then a else b

/-- Optional chaining `x?.key`: `undefined` when `x` is nullish, else the
property access. -/
def optChainGet (v : Js) (key : String) : Js :=
  if isNullish v then .undefined else getField v key

/-- Embeds the `KiteApiError` class of `errors.ts`: statusCode, message,
optional machine-readable code, optional raw diagnostic payload.  Fields the
source leaves unset hold `Js.undefined`.  `statusCode` and `message` are `Js`
because the source can populate them with arbitrary envelope values
(`data.status ?? statusCode`, `err?.message || ...`). -/
structure KiteApiError where
  statusCode : Js
  message : Js
  code : Js
  raw : Js
deriving Repr

/-- Embeds the `KiteNetworkError` class of `errors.ts`: message and the
underlying cause. -/
structure KiteNetworkError where
  message : Js
  cause : Js
deriving Repr

/-- Embeds the `RequestConfig` of `client.ts` (the fields that influence the
outcome of `request`; the `log` sink is a write-only effect modelled apart,
see `shouldLog`). -/
structure RequestConfig where
  baseUrl : String
  apiKey : String
  timeout : Int
deriving Repr

/-- The platform's `JSON.parse`: `some v` when parsing succeeds with value
`v`, `none` when it throws.  (JSON.parse never produces `undefined`.) -/
structure Platform where
  jsonParse : String → Option Js

/-- Outcome of awaiting `fetch(url, init)` followed by `response.text()`:
either the awaited pair rejected with a thrown value `err`, or a response
arrived and its body was read in full. -/
inductive FetchOutcome where
  | failure (err : Js)
  | response (status : Int) (statusText : String) (bodyText : String)

/-- The observable result of one call to `request`: a decoded payload is
returned, or a `KiteApiError` is thrown, or a `KiteNetworkError` is thrown. -/
inductive ReqResult where
  | payload (v : Js)
  | apiError (e : KiteApiError)
  | networkError (e : KiteNetworkError)
deriving Repr

/-- Whether a `ReqResult` is a returned payload. -/
def ReqResult.isPayloadB : ReqResult → Bool
  | .payload _ => true
  | _ => false

/-- Whether a `ReqResult` is a thrown `KiteApiError`. -/
def ReqResult.isApiErrorB : ReqResult → Bool
  | .apiError _ => true
  | _ => false

/-- Whether a `ReqResult` is a thrown `KiteNetworkError`. -/
def ReqResult.isNetworkErrorB : ReqResult → Bool
  | .networkError _ => true
  | _ => false

/-- Embeds `safeJsonParse` of `client.ts`: `JSON.parse` the body, returning
`null` when parsing throws. -/
def safeJsonParse (p : Platform) (body : String) : Js :=
  match p.jsonParse body with
  | some v => v
  | none => .null

/-- `Response.ok` per the fetch specification: status in the inclusive range
[200, 299]. -/
def responseOk (status : Int) : Bool :=
  decide (200 ≤ status) && decide (status ≤ 299)

/-- Embeds line 33 of `client.ts`: `config.baseUrl.replace(/\/$/, '')`
strips one trailing slash before the path is appended. -/
def stripTrailingSlash (s : String) : String :=
  if s.endsWith "/" then s.dropRight 1 else s

/-- Embeds the URL construction of `request`. -/
def buildUrl (cfg : RequestConfig) (path : String) : String :=
  stripTrailingSlash cfg.baseUrl ++ path

/-- Embeds lines 98–102 of `client.ts` (the genuine-success unwrap):
`if (data && typeof data === 'object' && 'data' in data) return data.data ?? data;
return data ?? {}`. -/
def unwrapSuccess (data : Js) : Js :=
  if truthy data && typeofIsObject data && hasField data "data" then
    nullishCoalesce (getField data "data") data
  else
    nullishCoalesce data (.obj [])

/-- Embeds the outcome classification of `request` in `client.ts`
(lines 54–103), given the result of the awaited transport exchange.

* Exchange rejected (`catch` block, lines 60–68): classify by
  `err?.name === 'AbortError'` into the timeout message or
  `err?.message || 'Network request failed'`, and throw a
  `KiteNetworkError` carrying the cause.
* Response received: `safeJsonParse` the body text (line 72), then
  - `!response.ok` (lines 75–86): throw a `KiteApiError` with the HTTP
    status, the message chain
    `(data && typeof data.error === 'string' && data.error) || response.statusText || fallback`,
    and `raw = data ?? responseText`;
  - `data && data.success === false` (lines 88–96): throw a `KiteApiError`
    with `data.status ?? statusCode`, the ternary message, and `raw = data`;
  - otherwise return `unwrapSuccess data`.

The `clearTimeout` calls, header construction and body serialization do not
affect which outcome is produced and are not part of the result model. -/
def requestModel (p : Platform) (cfg : RequestConfig) (outcome : FetchOutcome) : ReqResult :=
  match outcome with
  | .failure err =>
      let isAbort := strictEqStr (optChainGet err "name") "AbortError"
      let message : Js :=
        if isAbort then
          .str ("Request timed out after " ++ toString cfg.timeout ++ "ms")
        else
          jsOr (optChainGet err "message") (.str "Network request failed")
      .networkError { message := message, cause := err }
  | .response status statusText bodyText =>
      let data := safeJsonParse p bodyText
      if !(responseOk status) then
        .apiError
          { statusCode := .num status
            message :=
              jsOr
                (jsOr
                  (jsAnd (jsAnd data (.bool (isString (getField data "error"))))
                    (getField data "error"))
                  (.str statusText))
                (.str ("Request failed with status " ++ toString status))
            code := .undefined
            raw := nullishCoalesce data (.str bodyText) }
      else if truthy data && strictEqBool (getField data "success") false then
        .apiError
          { statusCode := nullishCoalesce (getField data "status") (.num status)
            message :=
              if isString (getField data "error") then getField data "error"
              else .str "Request failed"
            code := .undefined
            raw := data }
      else
        .payload (unwrapSuccess data)

/-- The log severities of `types.ts`. -/
inductive LogLevel where
  | debug
  | info
  | warn
  | error
deriving Repr, DecidableEq

/-- Embeds `LOG_LEVELS` of `index.ts` (lines 63–68). -/
def LOG_LEVELS : LogLevel → Nat
  | .debug => 0
  | .info => 1
  | .warn => 2
  | .error => 3

/-- Embeds the emission condition of the log sink built in the `KiteClient`
constructor (`index.ts` line 93):
`if (LOG_LEVELS[level] <= LOG_LEVELS[logLevel])`. -/
def shouldLog (level configured : LogLevel) : Bool :=
  decide (LOG_LEVELS level ≤ LOG_LEVELS configured)

/-- What a public client method does before any HTTP exchange: either it
throws a `KiteApiError` locally (parameter validation), or it proceeds to
hand the call to `request` — the HTTP exchange happens only in the second
case. -/
inductive MethodStep where
  | localApiError (e : KiteApiError)
  | proceed (method : String) (path : String) (body : Js)
deriving Repr

/-- Embeds the validation guard of `KiteClient.getWallet` (`index.ts`
lines 148–154).  With `walletId` typed as a string, the guard
`!walletId || typeof walletId !== 'string'` fires exactly on the empty
string.  `encodeURIComponent` is a platform primitive taken as a
parameter. -/
def getWalletStep (enc : String → String) (walletId : String) : MethodStep :=
  if walletId = "" then
    .localApiError
      { statusCode := .num 400
        message := .str "walletId is required and must be a string"
        code := .undefined
        raw := .undefined }
  else
    .proceed "GET" ("/api/wallets/" ++ enc walletId) .undefined

/-- Parameters of `KiteClient.getNonce`. -/
structure GetNonceParams where
  walletId : String
  rpcUrl : String
deriving Repr

/-- Embeds the validation guard of `KiteClient.getNonce` (`index.ts`
lines 208–216): `if (!params.walletId || !params.rpcUrl) throw ...`. -/
def getNonceStep (ps : GetNonceParams) : MethodStep :=
  if ps.walletId = "" ∨ ps.rpcUrl = "" then
    .localApiError
      { statusCode := .num 400
        message := .str "walletId and rpcUrl are required"
        code := .undefined
        raw := .undefined }
  else
    .proceed "POST" "/api/transactions/nonce"
      (.obj [("walletId", .str ps.walletId), ("rpcUrl", .str ps.rpcUrl)])

/-! ## Sample platform and concrete bodies (used by witnesses) -/

/-- Body text `{"error":""}`. -/
def bodyEmptyError : String := "\x7b\"error\":\"\"\x7d"

/-- Body text `{"success":true,"status":200,"data":"X"}`. -/
def bodyEnvelopeData : String := "\x7b\"success\":true,\"status\":200,\"data\":\"X\"\x7d"

/-- Body text `{"success":true,"status":200}`. -/
def bodyEnvelopeNoData : String := "\x7b\"success\":true,\"status\":200\x7d"

/-- Body text `{"success":false,"status":418,"error":"teapot"}`. -/
def bodyDeclaredFailure : String := "\x7b\"success\":false,\"status\":418,\"error\":\"teapot\"\x7d"

/-- Body text `{"walletId":"w1"}`. -/
def bodyBare : String := "\x7b\"walletId\":\"w1\"\x7d"

/-- Body text `{"success":0,"data":7}`. -/
def bodySuccessZero : String := "\x7b\"success\":0,\"data\":7\x7d"

/-- Body text `{"success":"false","data":7}`. -/
def bodySuccessStringFalse : String := "\x7b\"success\":\"false\",\"data\":7\x7d"

/-- Body text `{"success":null,"data":7}`. -/
def bodySuccessNull : String := "\x7b\"success\":null,\"data\":7\x7d"

/-- Body text `{"success":"","data":7}`. -/
def bodySuccessEmptyString : String := "\x7b\"success\":\"\",\"data\":7\x7d"

/-- Body text `{"data":7}`. -/
def bodyNoSuccessField : String := "\x7b\"data\":7\x7d"

/-- A body that is not valid JSON. -/
def bodyNotJson : String := "not json\x7b"

/-- A concrete `JSON.parse` covering the body texts above, agreeing with
real JSON semantics on each of them (`"null"` parses to the JSON null
value; `bodyNotJson` and unknown strings fail to parse). -/
def sampleParse (s : String) : Option Js :=
  if s = bodyEmptyError then some (.obj [("error", .str "")])
  else if s = "null" then some .null
  else if s = bodyEnvelopeData then
    some (.obj [("success", .bool true), ("status", .num 200), ("data", .str "X")])
  else if s = bodyEnvelopeNoData then
    some (.obj [("success", .bool true), ("status", .num 200)])
  else if s = bodyDeclaredFailure then
    some (.obj [("success", .bool false), ("status", .num 418), ("error", .str "teapot")])
  else if s = bodyBare then some (.obj [("walletId", .str "w1")])
  else if s = bodySuccessZero then some (.obj [("success", .num 0), ("data", .num 7)])
  else if s = bodySuccessStringFalse then
    some (.obj [("success", .str "false"), ("data", .num 7)])
  else if s = bodySuccessNull then some (.obj [("success", .null), ("data", .num 7)])
  else if s = bodySuccessEmptyString then
    some (.obj [("success", .str ""), ("data", .num 7)])
  else if s = bodyNoSuccessField then some (.obj [("data", .num 7)])
  else none

/-- A concrete platform built from `sampleParse`. -/
def samplePlatform : Platform := ⟨sampleParse⟩

/-- A concrete request configuration. -/
def sampleCfg : RequestConfig :=
  { baseUrl := "http://localhost:3000", apiKey := "test-key", timeout := 50 }

/-! ## Claim-side definitions and helper lemmas -/

/-- The HTTP-error message precedence as the (amended) claim states it: the
envelope's `error` field when it is a non-empty string, else the response
status text when non-empty, else a fallback embedding the numeric status. -/
def resolvedMessageSpec (env : Js) (statusText : String) (status : Int) : String :=
  match getField env "error" with
  | .str s =>
      if s = "" then
        (if statusText = "" then "Request failed with status " ++ toString status
         else statusText)
      else s
  | _ =>
      if statusText = "" then "Request failed with status " ++ toString status
      else statusText

@[simp] theorem truthy_undefined : truthy .undefined = false := rfl

@[simp] theorem truthy_null : truthy .null = false := rfl

@[simp] theorem truthy_bool (b : Bool) : truthy (.bool b) = b := rfl

@[simp] theorem truthy_num (n : Int) : truthy (.num n) = !(n == 0) := rfl

@[simp] theorem truthy_str (s : String) : truthy (.str s) = !(s == "") := rfl

@[simp] theorem truthy_arr (elems : List Js) : truthy (.arr elems) = true := rfl

@[simp] theorem truthy_obj (fields : List (String × Js)) : truthy (.obj fields) = true := rfl

theorem getField_of_not_truthy (env : Js) (key : String) (h : truthy env = false) :
    getField env key = .undefined := by
  cases env <;> simp [truthy, getField] at h ⊢

theorem getField_eq_undef_of_not_hasField (env : Js) (key : String)
    (h : hasField env key = false) : getField env key = .undefined := by
  cases env <;> simp [hasField, getField] at h ⊢
  rename_i fields
  cases hl : lookupField fields key <;> simp [hl] at h ⊢

theorem truthy_of_success_false (env : Js)
    (h : strictEqBool (getField env "success") false = true) : truthy env = true := by
  cases env <;> simp [getField, strictEqBool, truthy] at h ⊢

theorem branch1_message_eq (env : Js) (st : String) (status : Int) :
    jsOr
      (jsOr
        (jsAnd (jsAnd env (.bool (isString (getField env "error"))))
          (getField env "error"))
        (.str st))
      (.str ("Request failed with status " ++ toString status))
    = .str (resolvedMessageSpec env st status) := by
  by_cases ht : truthy env
  · cases he : getField env "error" with
    | str s =>
        by_cases hs : s = ""
        · by_cases hst : st = "" <;>
            simp [jsAnd, jsOr, ht, he, isString, resolvedMessageSpec, hs, hst]
        · simp [jsAnd, jsOr, ht, he, isString, resolvedMessageSpec, hs]
    | undefined =>
        by_cases hst : st = "" <;>
          simp [jsAnd, jsOr, ht, he, isString, resolvedMessageSpec, hst]
    | null =>
        by_cases hst : st = "" <;>
          simp [jsAnd, jsOr, ht, he, isString, resolvedMessageSpec, hst]
    | bool b =>
        by_cases hst : st = "" <;>
          simp [jsAnd, jsOr, ht, he, isString, resolvedMessageSpec, hst]
    | num n =>
        by_cases hst : st = "" <;>
          simp [jsAnd, jsOr, ht, he, isString, resolvedMessageSpec, hst]
    | arr elems =>
        by_cases hst : st = "" <;>
          simp [jsAnd, jsOr, ht, he, isString, resolvedMessageSpec, hst]
    | obj fields =>
        by_cases hst : st = "" <;>
          simp [jsAnd, jsOr, ht, he, isString, resolvedMessageSpec, hst]
  · rw [Bool.not_eq_true] at ht
    have hg := getField_of_not_truthy env "error" ht
    by_cases hst : st = "" <;>
      simp [jsAnd, jsOr, ht, hg, isString, resolvedMessageSpec, hst]

/-! ## Claim theorems -/

/-- Claim C1: for every call to `request`, exactly one of the three outcomes
occurs — a decoded payload is returned, a `KiteApiError` is thrown, or a
`KiteNetworkError` is thrown; never both a return and a throw, never
neither, and no other outcome kind is possible. -/
theorem request_exactly_one_outcome (p : Platform) (cfg : RequestConfig) (out : FetchOutcome) :
    (requestModel p cfg out).isPayloadB.toNat + (requestModel p cfg out).isApiErrorB.toNat
      + (requestModel p cfg out).isNetworkErrorB.toNat = 1 := by
  cases h : requestModel p cfg out <;>
    simp [ReqResult.isPayloadB, ReqResult.isApiErrorB, ReqResult.isNetworkErrorB]

/-- Claim C2, counterexample.  Against the claim as stated:
(1) with HTTP 500 and envelope `{"error":""}`, the envelope's `error` field
is a string, yet the thrown message is the status text, not that field —
the code's first precedence step additionally requires the string to be
non-empty (truthiness);
(2) with HTTP 500 and body `"null"`, JSON parsing succeeds (producing the
JSON null value), yet `raw` is the raw response text, not the parsed
envelope — the code's `data ?? responseText` treats a null parse result
like a parse failure. -/
theorem c2_counterexample :
    (requestModel samplePlatform sampleCfg (.response 500 "Internal Server Error" bodyEmptyError)
      = .apiError { statusCode := .num 500, message := .str "Internal Server Error",
                    code := .undefined, raw := .obj [("error", .str "")] })
    ∧ isString (getField (.obj [("error", .str "")]) "error") = true
    ∧ (requestModel samplePlatform sampleCfg (.response 500 "Internal Server Error" "null")
      = .apiError { statusCode := .num 500, message := .str "Internal Server Error",
                    code := .undefined, raw := .str "null" })
    ∧ samplePlatform.jsonParse "null" = some .null :=
  ⟨rfl, rfl, rfl, rfl⟩

/-- Claim C2, amended: for every call where the HTTP status is outside
[200, 299], `request` throws a `KiteApiError` whose `statusCode` equals the
HTTP status regardless of envelope content, whose message is resolved by
precedence (the envelope's `error` field if it is a non-empty string, else
the response status text if non-empty, else a fallback string embedding the
numeric status), and whose `raw` field is the parsed envelope if parsing
produced a non-null value, else the raw response text. -/
theorem c2_amended_http_error (p : Platform) (cfg : RequestConfig) (status : Int)
    (st text : String) (hok : responseOk status = false) :
    ∃ e, requestModel p cfg (.response status st text) = .apiError e
      ∧ e.statusCode = .num status
      ∧ e.message = .str (resolvedMessageSpec (safeJsonParse p text) st status)
      ∧ e.raw = (if isNullish (safeJsonParse p text) then .str text else safeJsonParse p text) := by
  refine ⟨{ statusCode := .num status
            message :=
              jsOr
                (jsOr
                  (jsAnd
                    (jsAnd (safeJsonParse p text)
                      (.bool (isString (getField (safeJsonParse p text) "error"))))
                    (getField (safeJsonParse p text) "error"))
                  (.str st))
                (.str ("Request failed with status " ++ toString status))
            code := .undefined
            raw := nullishCoalesce (safeJsonParse p text) (.str text) }, ?_, rfl, ?_, rfl⟩
  · simp [requestModel, hok]
  · exact branch1_message_eq (safeJsonParse p text) st status

/-- Witness for the amended claim C2: a concrete HTTP 502 with an unparsable
body, where the thrown error carries statusCode 502, the status-text
message, and the raw body text. -/
theorem c2_amended_http_error_witness :
    responseOk 502 = false
    ∧ ∃ e, requestModel samplePlatform sampleCfg (.response 502 "Bad Gateway" bodyNotJson)
        = .apiError e
      ∧ e.statusCode = .num 502
      ∧ e.message = .str (resolvedMessageSpec (safeJsonParse samplePlatform bodyNotJson) "Bad Gateway" 502)
      ∧ e.raw = (if isNullish (safeJsonParse samplePlatform bodyNotJson) then .str bodyNotJson
                 else safeJsonParse samplePlatform bodyNotJson) :=
  ⟨rfl, c2_amended_http_error samplePlatform sampleCfg 502 "Bad Gateway" bodyNotJson rfl⟩

/-- Claim C3: for every call where the HTTP status is in [200, 299] but the
parsed envelope has `success === false`, `request` throws a `KiteApiError`
whose `statusCode` is the envelope's `status` field if present (non-nullish,
matching the source's `data.status ?? statusCode`), else the HTTP status;
whose message is the envelope's `error` field if it is a string, else
"Request failed"; and whose `raw` field is the full parsed envelope. -/
theorem c3_declared_failure (p : Platform) (cfg : RequestConfig) (status : Int)
    (st text : String) (hok : responseOk status = true)
    (hfail : strictEqBool (getField (safeJsonParse p text) "success") false = true) :
    ∃ e, requestModel p cfg (.response status st text) = .apiError e
      ∧ e.statusCode = (if isNullish (getField (safeJsonParse p text) "status") then .num status
                        else getField (safeJsonParse p text) "status")
      ∧ e.message = (if isString (getField (safeJsonParse p text) "error")
                     then getField (safeJsonParse p text) "error" else .str "Request failed")
      ∧ e.raw = safeJsonParse p text := by
  have htr : truthy (safeJsonParse p text) = true := truthy_of_success_false _ hfail
  refine ⟨{ statusCode := nullishCoalesce (getField (safeJsonParse p text) "status") (.num status)
            message :=
              if isString (getField (safeJsonParse p text) "error")
              then getField (safeJsonParse p text) "error" else .str "Request failed"
            code := .undefined
            raw := safeJsonParse p text }, ?_, rfl, rfl, rfl⟩
  simp [requestModel, hok, htr, hfail]

/-- Witness for claim C3: HTTP 200 with envelope
`{"success":false,"status":418,"error":"teapot"}` throws a `KiteApiError`
with statusCode 418 (the envelope's status), message "teapot", and the full
envelope as `raw`. -/
theorem c3_declared_failure_witness :
    responseOk 200 = true
    ∧ strictEqBool (getField (safeJsonParse samplePlatform bodyDeclaredFailure) "success") false = true
    ∧ (∃ e, requestModel samplePlatform sampleCfg (.response 200 "OK" bodyDeclaredFailure)
        = .apiError e
      ∧ e.statusCode = (if isNullish (getField (safeJsonParse samplePlatform bodyDeclaredFailure) "status")
                        then .num 200
                        else getField (safeJsonParse samplePlatform bodyDeclaredFailure) "status")
      ∧ e.message = (if isString (getField (safeJsonParse samplePlatform bodyDeclaredFailure) "error")
                     then getField (safeJsonParse samplePlatform bodyDeclaredFailure) "error"
                     else .str "Request failed")
      ∧ e.raw = safeJsonParse samplePlatform bodyDeclaredFailure)
    ∧ safeJsonParse samplePlatform bodyDeclaredFailure
        = .obj [("success", .bool false), ("status", .num 418), ("error", .str "teapot")] :=
  ⟨rfl, rfl, c3_declared_failure samplePlatform sampleCfg 200 "OK" bodyDeclaredFailure rfl rfl, rfl⟩

/-- Claim C4: for every successful call (HTTP status in [200, 299], no
declared failure) where the parsed envelope is
`{success:true, status:200, data:X}`, `request` returns exactly `X`; if the
nested `data` value is null it returns the whole envelope object instead
(first conjunct), and if the `data` field is absent it likewise returns the
whole envelope object (second conjunct). -/
theorem c4_envelope_unwrap :
    (∀ (p : Platform) (cfg : RequestConfig) (status : Int) (st text : String) (X : Js),
      responseOk status = true →
      p.jsonParse text = some (.obj [("success", .bool true), ("status", .num 200), ("data", X)]) →
      requestModel p cfg (.response status st text)
        = .payload (if isNullish X
                    then .obj [("success", .bool true), ("status", .num 200), ("data", X)]
                    else X))
    ∧ (∀ (p : Platform) (cfg : RequestConfig) (status : Int) (st text : String),
      responseOk status = true →
      p.jsonParse text = some (.obj [("success", .bool true), ("status", .num 200)]) →
      requestModel p cfg (.response status st text)
        = .payload (.obj [("success", .bool true), ("status", .num 200)])) := by
  constructor
  · intro p cfg status st text X hok hp
    simp [requestModel, safeJsonParse, hp, hok, strictEqBool, getField, lookupField,
      unwrapSuccess, typeofIsObject, hasField, nullishCoalesce, isNullish]
  · intro p cfg status st text hok hp
    simp [requestModel, safeJsonParse, hp, hok, strictEqBool, getField, lookupField,
      unwrapSuccess, typeofIsObject, hasField, nullishCoalesce, isNullish]

/-- Witness for claim C4: at HTTP 200 the envelope
`{"success":true,"status":200,"data":"X"}` yields the payload `"X"`, and the
envelope `{"success":true,"status":200}` (no `data` field) yields the whole
envelope. -/
theorem c4_envelope_unwrap_witness :
    responseOk 200 = true
    ∧ requestModel samplePlatform sampleCfg (.response 200 "OK" bodyEnvelopeData)
        = .payload (if isNullish (Js.str "X")
                    then .obj [("success", .bool true), ("status", .num 200), ("data", .str "X")]
                    else .str "X")
    ∧ (if isNullish (Js.str "X")
       then Js.obj [("success", .bool true), ("status", .num 200), ("data", .str "X")]
       else Js.str "X") = .str "X"
    ∧ requestModel samplePlatform sampleCfg (.response 200 "OK" bodyEnvelopeNoData)
        = .payload (.obj [("success", .bool true), ("status", .num 200)]) :=
  ⟨rfl,
   c4_envelope_unwrap.1 samplePlatform sampleCfg 200 "OK" bodyEnvelopeData (.str "X") rfl rfl,
   rfl,
   c4_envelope_unwrap.2 samplePlatform sampleCfg 200 "OK" bodyEnvelopeNoData rfl rfl⟩

/-- Claim C5: for every call with HTTP status in [200, 299] whose body is
not parsable as JSON, `request` does not raise — the parse failure is
recovered locally and an empty object is returned as the payload. -/
theorem c5_unparsable_body_recovered (p : Platform) (cfg : RequestConfig) (status : Int)
    (st text : String) (hok : responseOk status = true) (hp : p.jsonParse text = none) :
    requestModel p cfg (.response status st text) = .payload (.obj [])
    ∧ (requestModel p cfg (.response status st text)).isApiErrorB = false
    ∧ (requestModel p cfg (.response status st text)).isNetworkErrorB = false := by
  have h1 : requestModel p cfg (.response status st text) = .payload (.obj []) := by
    simp [requestModel, safeJsonParse, hp, hok, strictEqBool, getField, unwrapSuccess,
      typeofIsObject, hasField, nullishCoalesce, isNullish]
  exact ⟨h1, by rw [h1]; rfl, by rw [h1]; rfl⟩

/-- Witness for claim C5: HTTP 200 with the body `"not json{"` returns the
empty object and raises neither error kind. -/
theorem c5_unparsable_body_recovered_witness :
    responseOk 200 = true
    ∧ samplePlatform.jsonParse bodyNotJson = none
    ∧ requestModel samplePlatform sampleCfg (.response 200 "OK" bodyNotJson) = .payload (.obj [])
    ∧ (requestModel samplePlatform sampleCfg (.response 200 "OK" bodyNotJson)).isApiErrorB = false
    ∧ (requestModel samplePlatform sampleCfg (.response 200 "OK" bodyNotJson)).isNetworkErrorB = false :=
  ⟨rfl, rfl,
   (c5_unparsable_body_recovered samplePlatform sampleCfg 200 "OK" bodyNotJson rfl rfl).1,
   (c5_unparsable_body_recovered samplePlatform sampleCfg 200 "OK" bodyNotJson rfl rfl).2.1,
   (c5_unparsable_body_recovered samplePlatform sampleCfg 200 "OK" bodyNotJson rfl rfl).2.2⟩

/-- Claim C6: for every call where the transport exchange fails, `request`
throws a `KiteNetworkError` and never a `KiteApiError`; if the failure is
the cancellation timer's abort (the thrown value's `name` is
`"AbortError"`), the message states the configured timeout value; for any
other failure the message is the underlying failure's `message` if truthy,
else the generic fallback "Network request failed"; the underlying cause is
preserved in both cases, which differ only in message text. -/
theorem c6_transport_failure (p : Platform) (cfg : RequestConfig) (err : Js) :
    ∃ ne, requestModel p cfg (.failure err) = .networkError ne
      ∧ ne.cause = err
      ∧ ne.message = (if strictEqStr (optChainGet err "name") "AbortError"
                      then .str ("Request timed out after " ++ toString cfg.timeout ++ "ms")
                      else if truthy (optChainGet err "message") then optChainGet err "message"
                      else .str "Network request failed")
      ∧ (requestModel p cfg (.failure err)).isApiErrorB = false := by
  refine ⟨{ message :=
              if strictEqStr (optChainGet err "name") "AbortError" then
                .str ("Request timed out after " ++ toString cfg.timeout ++ "ms")
              else jsOr (optChainGet err "message") (.str "Network request failed")
            cause := err }, rfl, rfl, ?_, rfl⟩
  by_cases h : strictEqStr (optChainGet err "name") "AbortError" = true <;> simp [h, jsOr]

/-- Claim C7 [code bug]: the claim (and the spec) state that a message with
severity `L` under configured minimum `M` is emitted iff
`LOG_LEVELS L ≥ LOG_LEVELS M`; the source's filter
(`LOG_LEVELS[level] <= LOG_LEVELS[logLevel]`, `index.ts` line 93) is the
inverse comparison.  At the default configured level `info`, severity
`error` has rank 3 ≥ 1 yet is not emitted, while severity `debug` has rank
0 < 1 yet is emitted. -/
theorem log_filter_inverted :
    shouldLog .error .info = false ∧ LOG_LEVELS .error ≥ LOG_LEVELS .info
    ∧ shouldLog .debug .info = true ∧ LOG_LEVELS .debug < LOG_LEVELS .info := by
  decide

/-- Claim C8, counterexample: `KiteClient.getWallet` called with an empty
`walletId` throws a `KiteApiError` (statusCode 400) during local parameter
validation, before any HTTP exchange — so a `KiteApiError` can be thrown
without the remote service having been reached. -/
theorem c8_counterexample :
    getWalletStep (fun s => s) "" =
      .localApiError { statusCode := .num 400,
                       message := .str "walletId is required and must be a string",
                       code := .undefined, raw := .undefined } := rfl

/-- Claim C8, amended: every `KiteApiError` thrown by a public client method
either is a local parameter-validation error with statusCode 400 raised
before any HTTP exchange, or arises from an exchange in which the remote
service responded with a failure signal (non-2xx HTTP status or an explicit
`success === false` envelope flag); the transport never produces a
`KiteApiError` from a transport-level failure. -/
theorem c8_amended_api_error_origin :
    (∀ (enc : String → String) (wid : String) (e : KiteApiError),
        getWalletStep enc wid = .localApiError e → e.statusCode = .num 400)
    ∧ (∀ (ps : GetNonceParams) (e : KiteApiError),
        getNonceStep ps = .localApiError e → e.statusCode = .num 400)
    ∧ (∀ (p : Platform) (cfg : RequestConfig) (err : Js),
        (requestModel p cfg (.failure err)).isApiErrorB = false)
    ∧ (∀ (p : Platform) (cfg : RequestConfig) (status : Int) (st text : String),
        (requestModel p cfg (.response status st text)).isApiErrorB = true →
        responseOk status = false
          ∨ strictEqBool (getField (safeJsonParse p text) "success") false = true) := by
  refine ⟨?_, ?_, ?_, ?_⟩
  · intro enc wid e h
    unfold getWalletStep at h
    split at h
    · cases h; rfl
    · cases h
  · intro ps e h
    unfold getNonceStep at h
    split at h
    · cases h; rfl
    · cases h
  · intro p cfg err
    rfl
  · intro p cfg status st text h
    by_cases hok : responseOk status = true
    · by_cases hsf : strictEqBool (getField (safeJsonParse p text) "success") false = true
      · exact Or.inr hsf
      · exfalso
        rw [Bool.not_eq_true] at hsf
        simp [requestModel, hok, hsf, ReqResult.isApiErrorB] at h
    · rw [Bool.not_eq_true] at hok
      exact Or.inl hok

/-- Witness for the amended claim C8: the empty-`walletId` validation error
carries statusCode 400, and a concrete HTTP 500 response that produces a
`KiteApiError` indeed carries a failure signal (its status is not ok). -/
theorem c8_amended_api_error_origin_witness :
    ({ statusCode := .num 400, message := .str "walletId is required and must be a string",
       code := .undefined, raw := .undefined } : KiteApiError).statusCode = .num 400
    ∧ (responseOk 500 = false
       ∨ strictEqBool (getField (safeJsonParse samplePlatform "null") "success") false = true) :=
  ⟨c8_amended_api_error_origin.1 (fun s => s) "" _ rfl,
   c8_amended_api_error_origin.2.2.2 samplePlatform sampleCfg 500 "Internal Server Error" "null" rfl⟩

/-- Claim C9: for every successful call (HTTP status in [200, 299]) whose
parsed envelope is a bare object containing neither a `data` field nor a
`success` field, `request` returns that object unchanged. -/
theorem c9_bare_object_identity (p : Platform) (cfg : RequestConfig) (status : Int)
    (st text : String) (fields : List (String × Js))
    (hok : responseOk status = true)
    (hp : p.jsonParse text = some (.obj fields))
    (hnd : hasField (.obj fields) "data" = false)
    (hns : hasField (.obj fields) "success" = false) :
    requestModel p cfg (.response status st text) = .payload (.obj fields) := by
  have hgs : getField (.obj fields) "success" = .undefined :=
    getField_eq_undef_of_not_hasField _ _ hns
  have hdata : safeJsonParse p text = .obj fields := by simp [safeJsonParse, hp]
  simp [requestModel, hdata, hok, hgs, strictEqBool, unwrapSuccess, typeofIsObject, hnd,
    nullishCoalesce, isNullish]

/-- Witness for claim C9: HTTP 200 with the bare envelope
`{"walletId":"w1"}` returns exactly that object. -/
theorem c9_bare_object_identity_witness :
    responseOk 200 = true
    ∧ hasField (.obj [("walletId", .str "w1")]) "data" = false
    ∧ hasField (.obj [("walletId", .str "w1")]) "success" = false
    ∧ requestModel samplePlatform sampleCfg (.response 200 "OK" bodyBare)
        = .payload (.obj [("walletId", .str "w1")]) :=
  ⟨rfl, rfl, rfl,
   c9_bare_object_identity samplePlatform sampleCfg 200 "OK" bodyBare
     [("walletId", .str "w1")] rfl rfl rfl rfl⟩

/-- Claim C10: for every call with HTTP status in [200, 299], only the exact
boolean value `false` in the envelope's `success` field triggers the
application-failure `KiteApiError` branch — any envelope whose `success`
field is not strictly `=== false` (in particular `0`, `"false"`, `null`,
`""`, or absent) is treated as a genuine success and its unwrapped payload
is returned. -/
theorem c10_only_literal_false_fails (p : Platform) (cfg : RequestConfig) (status : Int)
    (st text : String) (hok : responseOk status = true)
    (hnot : strictEqBool (getField (safeJsonParse p text) "success") false = false) :
    requestModel p cfg (.response status st text)
      = .payload (unwrapSuccess (safeJsonParse p text))
    ∧ (requestModel p cfg (.response status st text)).isApiErrorB = false := by
  have h1 : requestModel p cfg (.response status st text)
      = .payload (unwrapSuccess (safeJsonParse p text)) := by
    simp [requestModel, hok, hnot]
  exact ⟨h1, by rw [h1]; rfl⟩

/-- Witness for claim C10: at HTTP 200, envelopes with `success` equal to
`0`, `"false"`, `null`, `""`, and with `success` absent all return the
unwrapped payload (here the nested `data` value `7`) rather than throwing. -/
theorem c10_only_literal_false_fails_witness :
    responseOk 200 = true
    ∧ strictEqBool (getField (safeJsonParse samplePlatform bodySuccessZero) "success") false = false
    ∧ requestModel samplePlatform sampleCfg (.response 200 "OK" bodySuccessZero)
        = .payload (unwrapSuccess (safeJsonParse samplePlatform bodySuccessZero))
    ∧ unwrapSuccess (safeJsonParse samplePlatform bodySuccessZero) = .num 7
    ∧ requestModel samplePlatform sampleCfg (.response 200 "OK" bodySuccessStringFalse)
        = .payload (unwrapSuccess (safeJsonParse samplePlatform bodySuccessStringFalse))
    ∧ unwrapSuccess (safeJsonParse samplePlatform bodySuccessStringFalse) = .num 7
    ∧ requestModel samplePlatform sampleCfg (.response 200 "OK" bodySuccessNull)
        = .payload (unwrapSuccess (safeJsonParse samplePlatform bodySuccessNull))
    ∧ unwrapSuccess (safeJsonParse samplePlatform bodySuccessNull) = .num 7
    ∧ requestModel samplePlatform sampleCfg (.response 200 "OK" bodySuccessEmptyString)
        = .payload (unwrapSuccess (safeJsonParse samplePlatform bodySuccessEmptyString))
    ∧ unwrapSuccess (safeJsonParse samplePlatform bodySuccessEmptyString) = .num 7
    ∧ requestModel samplePlatform sampleCfg (.response 200 "OK" bodyNoSuccessField)
        = .payload (unwrapSuccess (safeJsonParse samplePlatform bodyNoSuccessField))
    ∧ unwrapSuccess (safeJsonParse samplePlatform bodyNoSuccessField) = .num 7 :=
  ⟨rfl, rfl,
   (c10_only_literal_false_fails samplePlatform sampleCfg 200 "OK" bodySuccessZero rfl rfl).1, rfl,
   (c10_only_literal_false_fails samplePlatform sampleCfg 200 "OK" bodySuccessStringFalse rfl rfl).1, rfl,
   (c10_only_literal_false_fails samplePlatform sampleCfg 200 "OK" bodySuccessNull rfl rfl).1, rfl,
   (c10_only_literal_false_fails samplePlatform sampleCfg 200 "OK" bodySuccessEmptyString rfl rfl).1, rfl,
   (c10_only_literal_false_fails samplePlatform sampleCfg 200 "OK" bodyNoSuccessField rfl rfl).1, rfl⟩
